import Mathlib

/-!
Shallow embedding of the Projectron backend (FastAPI + mongoengine) for
checking the natural-language specification against the code.

Each section embeds one region of the source:
* `app/services/ai/ai_plan_service.py` — `execute_with_fallbacks`
* `app/db/models/plan_progress.py` — `PlanProgress`
* `app/db/models/auth.py` — `User.can_generate_plan` / `record_plan_generation`
* `app/api/endpoints/plan.py` — `generate_project_plan`, `generate_plan_background`
* `app/api/endpoints/{milestones,tasks,subtasks,projects}.py` — CRUD endpoints
* `app/utils/serializers.py` — `create_or_update_project_from_plan`,
  `get_structured_project`

Machine values are modelled with `Nat`/`Int`/`ℚ`; Python exceptions with
`Except`; MongoDB collections with Lean lists of rows.
-/

/-! ### Fallback-chain executor
(`app/services/ai/ai_plan_service.py`, `execute_with_fallbacks`) -/

/-- Behaviour of one LLM generator for a single `ainvoke` call: it either
raises an exception or returns a value.  `ret none` models Python `None` /
an empty (falsy) result; `ret (some s)` models a non-empty result. -/
inductive GenBehavior where
  | raises (msg : String)
  | ret (v : Option String)
deriving DecidableEq, Repr

/-- Result of running the executor: how many `ainvoke` generation calls were
made, and the final outcome (`Except.error` models an exception escaping
`execute_with_fallbacks`). -/
structure ExecTrace where
  calls : Nat
  outcome : Except String (Option String)
deriving Repr

/-- The fallback loop of `execute_with_fallbacks`:
`for i, fallback_llm in enumerate(fallback_llms): try: return await
fallback_llm...ainvoke(...) except: if i == len(fallback_llms) - 1: raise`.
A fallback's return value is returned immediately with no emptiness check.
With no fallbacks the loop body never runs and the trailing
`raise RuntimeError("All models failed")` is reached. -/
def run_fallbacks : List GenBehavior → ExecTrace
  | [] => { calls := 0, outcome := .error "All models failed" }
  | .ret v :: _ => { calls := 1, outcome := .ok v }
  | [.raises msg] => { calls := 1, outcome := .error msg }
  | .raises _ :: r :: rs =>
    { calls := (run_fallbacks (r :: rs)).calls + 1,
      outcome := (run_fallbacks (r :: rs)).outcome }

/-- `execute_with_fallbacks(primary_llm, fallback_llms, ...)`: one call to the
primary; if it raises, or returns a falsy result (`if not result: raise
ValueError(...)`, caught by the same `except`), the fallback chain runs. -/
def execute_with_fallbacks (primary : GenBehavior) (fallbacks : List GenBehavior) :
    ExecTrace :=
  match primary with
  | .ret (some v) => { calls := 1, outcome := .ok (some v) }
  | .ret none =>
    { calls := (run_fallbacks fallbacks).calls + 1,
      outcome := (run_fallbacks fallbacks).outcome }
  | .raises _ =>
    { calls := (run_fallbacks fallbacks).calls + 1,
      outcome := (run_fallbacks fallbacks).outcome }

/-! ### Plan-generation progress record
(`app/db/models/plan_progress.py`, class `PlanProgress`) -/

/-- One `plan_progress` document.  `updated_at` is the model of the
`datetime.utcnow` timestamp; the mutating methods take the current time as an
explicit argument. -/
structure PlanProgress where
  task_id : String
  user_id : String
  status : String
  current_step : String
  step_number : Nat
  total_steps : Nat
  error_message : Option String
  result : List (String × String)
  project_id : Option String
  updated_at : Nat
deriving DecidableEq, Repr

/-- `PlanProgress.update_progress(step, step_number, status='processing')`. -/
def PlanProgress.update_progress (p : PlanProgress) (step : String)
    (stepNumber : Nat) (status : String) (now : Nat) : PlanProgress :=
  { p with current_step := step, step_number := stepNumber, status := status,
           updated_at := now }

/-- `PlanProgress.complete(result, project_id)`. -/
def PlanProgress.complete (p : PlanProgress) (result : List (String × String))
    (projectId : String) (now : Nat) : PlanProgress :=
  { p with status := "completed", current_step := "completed",
           step_number := p.total_steps, result := result,
           project_id := some projectId, updated_at := now }

/-- `PlanProgress.fail(error)`: only `status`, `error_message` and
`updated_at` are assigned. -/
def PlanProgress.fail (p : PlanProgress) (error : String) (now : Nat) :
    PlanProgress :=
  { p with status := "failed", error_message := some error, updated_at := now }

/-- C2: with a primary and N fallbacks that all fail, exactly N+1 generation
calls are attempted and a terminal error escapes; with a failing primary and
a succeeding first fallback, the first fallback's value is returned after
exactly 2 calls, independently of the remaining fallbacks (which are never
invoked). -/
theorem exec_fallbacks_exhaustion_and_short_circuit
    (pmsg : String) (msgs : List String) (v : Option String)
    (rest : List GenBehavior) :
    ((execute_with_fallbacks (.raises pmsg) (msgs.map GenBehavior.raises)).calls
        = msgs.length + 1
      ∧ ∃ e, (execute_with_fallbacks (.raises pmsg)
          (msgs.map GenBehavior.raises)).outcome = .error e)
    ∧ execute_with_fallbacks (.raises pmsg) (.ret v :: rest)
        = { calls := 2, outcome := .ok v } := by
  constructor
  · have h : ∀ ms : List String,
        (run_fallbacks (ms.map GenBehavior.raises)).calls = ms.length
          ∧ ∃ e, (run_fallbacks (ms.map GenBehavior.raises)).outcome = .error e := by
      intro ms
      induction ms with
      | nil => exact ⟨rfl, "All models failed", rfl⟩
      | cons m ms ih =>
        cases ms with
        | nil => exact ⟨rfl, m, rfl⟩
        | cons m2 ms2 =>
          obtain ⟨h1, e, h2⟩ := ih
          refine ⟨?_, e, ?_⟩
          · simp only [List.map_cons, run_fallbacks, List.length_cons]
            simp only [List.map_cons, List.length_cons] at h1
            omega
          · simp only [List.map_cons, run_fallbacks]
            simpa only [List.map_cons] using h2
    refine ⟨?_, ?_⟩
    · simp only [execute_with_fallbacks]
      rw [(h msgs).1]
    · obtain ⟨e, he⟩ := (h msgs).2
      exact ⟨e, by simp only [execute_with_fallbacks]; exact he⟩
  · simp [execute_with_fallbacks, run_fallbacks]

/-- C9: `fail` sets status to failed and records the message, leaving
`step_number` at its value at the point of failure; `complete` sets status to
completed, sets `step_number = total_steps`, and stores the result payload
and the project identifier. -/
theorem plan_progress_fail_and_complete (p : PlanProgress) (e : String)
    (r : List (String × String)) (pid : String) (t1 t2 : Nat) :
    ((p.fail e t1).status = "failed"
      ∧ (p.fail e t1).error_message = some e
      ∧ (p.fail e t1).step_number = p.step_number)
    ∧ ((p.complete r pid t2).status = "completed"
      ∧ (p.complete r pid t2).step_number = p.total_steps
      ∧ (p.complete r pid t2).result = r
      ∧ (p.complete r pid t2).project_id = some pid) := by
  refine ⟨⟨rfl, rfl, rfl⟩, ⟨rfl, rfl, rfl, rfl⟩⟩

/-- C10: the emptiness check applies only to the primary generator.  A
primary returning an empty result behaves exactly like a raising primary
(the fallback chain runs; with no fallbacks a terminal error results), while
a fallback returning an empty result has that value returned to the caller
as a success. -/
theorem exec_fallbacks_empty_result_asymmetry (pmsg : String)
    (fallbacks : List GenBehavior) (rest : List GenBehavior) :
    (execute_with_fallbacks (.ret none) fallbacks
        = execute_with_fallbacks (.raises pmsg) fallbacks)
    ∧ execute_with_fallbacks (.raises pmsg) (.ret none :: rest)
        = { calls := 2, outcome := .ok none }
    ∧ (execute_with_fallbacks (.ret none) []).outcome
        = .error "All models failed" := by
  refine ⟨rfl, ?_, rfl⟩
  simp [execute_with_fallbacks, run_fallbacks]

/-! ### Rate limiting
(`app/db/models/auth.py`, `User.can_generate_plan` /
`User.record_plan_generation`, and `app/api/endpoints/plan.py`,
`generate_project_plan`) -/

/-- The rate-limit fields of a `users` document.  Times are modelled as
whole seconds since the epoch (UTC). -/
structure RateState where
  total_plan_generations : Nat
  plan_generations_this_hour : Nat
  current_hour_start : Nat
deriving DecidableEq, Repr

/-- `current_time.replace(minute=0, second=0, microsecond=0)`: the top of the
clock-hour containing `t`. -/
def hour_start (t : Nat) : Nat := t - t % 3600

/-- `User.can_generate_plan`: returns the `(can_generate, error_message)`
pair of the source together with the (possibly reset and saved) rate-limit
fields.  The total cap is checked first; then the hourly counter is reset
when the stored hour start lies in an earlier clock-hour; then the hourly
cap is checked, with `minutes_remaining = int((next_hour -
current_time).total_seconds() / 60)`. -/
def can_generate_plan (u : RateState) (now : Nat) : Bool × String × RateState :=
  if u.total_plan_generations ≥ 30 then
    (false,
     "You have reached the maximum limit of 30 projects. Please contact support if you need to increase your limit.",
     u)
  else
    let u2 :=
      if u.current_hour_start < hour_start now then
        { u with plan_generations_this_hour := 0,
                 current_hour_start := hour_start now }
      else u
    if u2.plan_generations_this_hour ≥ 5 then
      let minutes_remaining := (hour_start now + 3600 - now) / 60
      (false,
       "You have reached the hourly limit of 5 projects. Please try again in "
         ++ toString minutes_remaining ++ " minutes.",
       u2)
    else
      (true, "", u2)

/-- `User.record_plan_generation`: refresh the hour window, then increment
both counters. -/
def record_plan_generation (u : RateState) (now : Nat) : RateState :=
  let u2 :=
    if u.current_hour_start < hour_start now then
      { u with plan_generations_this_hour := 0,
               current_hour_start := hour_start now }
    else u
  { u2 with total_plan_generations := u2.total_plan_generations + 1,
            plan_generations_this_hour := u2.plan_generations_this_hour + 1 }

/-- Successful result of `POST /plan/generate-plan`: the updated user
rate-limit fields, the freshly saved `PlanProgress` document, and the fact
that the background pipeline task was queued.  On the rejection path the
endpoint raises before `record_plan_generation`, before the progress
document is saved and before the background task (which performs all LLM
calls) is queued. -/
structure PlanStart where
  user : RateState
  progress : PlanProgress
  background_task_queued : Bool
deriving Repr

/-- `generate_project_plan` (the `/plan/generate-plan` endpoint body): check
the rate limit, reject with the rate-limit message if it fails, otherwise
record the generation, create a pending `PlanProgress` with
`total_steps = 7`, and queue `generate_plan_background`. -/
def generate_project_plan (u : RateState) (now : Nat)
    (taskId userId : String) : Except String PlanStart :=
  match can_generate_plan u now with
  | (false, msg, _) => .error msg
  | (true, _, u2) =>
    .ok { user := record_plan_generation u2 now,
          progress := { task_id := taskId, user_id := userId,
                        status := "pending", current_step := "starting",
                        step_number := 0, total_steps := 7,
                        error_message := none, result := [],
                        project_id := none, updated_at := now },
          background_task_queued := true }

/-- C6: a request is rejected (no background task, hence no LLM call) when
the user has 30 or more recorded total generations, or 5 or more generations
recorded in the current clock-hour; the hourly rejection message states the
remaining minutes until the next hour boundary; and a user whose recorded
hour start lies in an earlier clock-hour is allowed again (the hourly
counter having been reset), provided the total cap is not reached. -/
theorem rate_limit_boundary (u : RateState) (now : Nat) (tid uid : String) :
    (u.total_plan_generations ≥ 30 →
      generate_project_plan u now tid uid
        = .error "You have reached the maximum limit of 30 projects. Please contact support if you need to increase your limit.")
    ∧ (u.total_plan_generations < 30 →
        ¬ u.current_hour_start < hour_start now →
        u.plan_generations_this_hour ≥ 5 →
        generate_project_plan u now tid uid
          = .error ("You have reached the hourly limit of 5 projects. Please try again in "
              ++ toString ((hour_start now + 3600 - now) / 60) ++ " minutes."))
    ∧ (u.total_plan_generations < 30 →
        u.current_hour_start < hour_start now →
        ∃ s, generate_project_plan u now tid uid = .ok s
          ∧ s.background_task_queued = true
          ∧ s.user.plan_generations_this_hour = 1) := by
  refine ⟨?_, ?_, ?_⟩
  · intro h30
    simp [generate_project_plan, can_generate_plan, h30]
  · intro h30 hsame h5
    simp [generate_project_plan, can_generate_plan, Nat.not_le.mpr h30,
      hsame, h5]
  · intro h30 hnew
    have hok : generate_project_plan u now tid uid
        = .ok { user := record_plan_generation
                  { u with plan_generations_this_hour := 0,
                           current_hour_start := hour_start now } now,
                progress := { task_id := tid, user_id := uid,
                              status := "pending", current_step := "starting",
                              step_number := 0, total_steps := 7,
                              error_message := none, result := [],
                              project_id := none, updated_at := now },
                background_task_queued := true } := by
      simp [generate_project_plan, can_generate_plan, Nat.not_le.mpr h30, hnew]
    refine ⟨_, hok, rfl, ?_⟩
    simp [record_plan_generation]

/-- Witness for `rate_limit_boundary`: concrete instances of all three
branches.  At `now = 7260` (one hour and one minute past the epoch) the hour
start is `7200` and 59 minutes remain. -/
theorem rate_limit_boundary_witness :
    (generate_project_plan ⟨30, 0, 0⟩ 0 "t" "u"
        = .error "You have reached the maximum limit of 30 projects. Please contact support if you need to increase your limit.")
    ∧ (generate_project_plan ⟨10, 5, 7200⟩ 7260 "t" "u"
        = .error "You have reached the hourly limit of 5 projects. Please try again in 59 minutes.")
    ∧ (∃ s, generate_project_plan ⟨10, 5, 0⟩ 7260 "t" "u" = .ok s
        ∧ s.background_task_queued = true
        ∧ s.user.plan_generations_this_hour = 1) := by
  refine ⟨(rate_limit_boundary ⟨30, 0, 0⟩ 0 "t" "u").1 (by decide), ?_, ?_⟩
  · have h := (rate_limit_boundary ⟨10, 5, 7200⟩ 7260 "t" "u").2.1
      (by decide) (by decide) (by decide)
    simpa [hour_start] using h
  · exact (rate_limit_boundary ⟨10, 5, 0⟩ 7260 "t" "u").2.2 (by decide)
      (by decide)

/-! ### Cascade completion on subtask update
(`app/api/endpoints/subtasks.py`, `update_subtask`, and
`app/api/endpoints/tasks.py`, `update_task`) -/

/-- The cascade block of the `update_subtask` endpoint, after the ownership
and existence checks.  Entities are represented by their status strings:
`subtask_statuses` are the statuses of all subtasks of the parent task (the
one at index `i` is the subtask being updated), `sibling_task_statuses` the
statuses of the other tasks in the milestone.  The endpoint sets the
subtask's fields from the request body (here: its status), and only when the
updated subtask's status is `"completed"` checks whether all subtasks are
completed; if so and the task is not yet completed, the task is saved as
completed and — the milestone's tasks then being the (now completed) target
task together with the siblings — the milestone is saved as completed when
all of those are completed.  Returns the updated
(subtask statuses, task status, milestone status). -/
def update_subtask (subtask_statuses : List String) (i : Nat)
    (newStatus : String) (task_status : String)
    (sibling_task_statuses : List String) (milestone_status : String) :
    List String × String × String :=
  let subtasks := subtask_statuses.set i newStatus
  if newStatus == "completed" then
    let all_completed := subtasks.all (fun s => s == "completed")
    if all_completed && !(task_status == "completed") then
      let all_tasks_completed :=
        sibling_task_statuses.all (fun s => s == "completed")
      if all_tasks_completed && !(milestone_status == "completed") then
        (subtasks, "completed", "completed")
      else
        (subtasks, "completed", milestone_status)
    else
      (subtasks, task_status, milestone_status)
  else
    (subtasks, task_status, milestone_status)

/-- C4: marking the last incomplete subtask of a (not yet completed) task as
completed flips the task to completed; if every other task of the milestone
is completed the (not yet completed) milestone flips to completed as well;
if some other task of the milestone is not completed, the milestone status
is left unchanged. -/
theorem cascade_completion (sts : List String) (i : Nat)
    (task_st mil_st : String) (siblings : List String)
    (hall : (sts.set i "completed").all (fun s => s == "completed") = true)
    (htask : task_st ≠ "completed") :
    ((update_subtask sts i "completed" task_st siblings mil_st).2.1
        = "completed")
    ∧ (siblings.all (fun s => s == "completed") = true →
        mil_st ≠ "completed" →
        (update_subtask sts i "completed" task_st siblings mil_st).2.2
          = "completed")
    ∧ (siblings.all (fun s => s == "completed") = false →
        (update_subtask sts i "completed" task_st siblings mil_st).2.2
          = mil_st) := by
  refine ⟨?_, ?_, ?_⟩
  · simp [update_subtask, hall, htask, apply_ite]
  · intro hsib hmil
    simp [update_subtask, hall, htask, hsib, hmil]
  · intro hsib
    simp [update_subtask, hall, htask, hsib]

/-- Witness for `cascade_completion`: completing the last incomplete subtask
flips the task; with the only sibling task completed the milestone flips,
with an incomplete sibling it does not. -/
theorem cascade_completion_witness :
    ((update_subtask ["completed", "not_started"] 1 "completed" "in_progress"
        ["completed"] "in_progress").2.1 = "completed")
    ∧ ((update_subtask ["completed", "not_started"] 1 "completed"
        "in_progress" ["completed"] "in_progress").2.2 = "completed")
    ∧ ((update_subtask ["completed", "not_started"] 1 "completed"
        "in_progress" ["not_started"] "in_progress").2.2 = "in_progress") := by
  refine ⟨?_, ?_, ?_⟩
  · exact (cascade_completion ["completed", "not_started"] 1 "in_progress"
      "in_progress" ["completed"] (by decide) (by decide)).1
  · exact (cascade_completion ["completed", "not_started"] 1 "in_progress"
      "in_progress" ["completed"] (by decide) (by decide)).2.1 (by decide)
      (by decide)
  · exact (cascade_completion ["completed", "not_started"] 1 "in_progress"
      "in_progress" ["not_started"] (by decide) (by decide)).2.2 (by decide)

/-! ### Completion percentage
(`app/api/endpoints/projects.py`, `get_structured_project`, statistics
block) -/

/-- Round-half-to-even to an integer, the rounding used by Python's builtin
`round` on an exact value. -/
def round_half_even (q : ℚ) : ℤ :=
  if q - ⌊q⌋ < 1 / 2 then ⌊q⌋
  else if 1 / 2 < q - ⌊q⌋ then ⌊q⌋ + 1
  else if ⌊q⌋ % 2 = 0 then ⌊q⌋ else ⌊q⌋ + 1

/-- Python `round(q, 2)` on an exact value. -/
def py_round2 (q : ℚ) : ℚ := (round_half_even (q * 100) : ℚ) / 100

/-- The statistics block at the end of `get_structured_project`: tasks are
represented by their status strings and `milestones_list` by each
milestone's list of tasks.  Returns
`(task_count, completed_task_count, completion_percentage)` as computed by
the source: `total_tasks = sum(len(m['tasks']))`,
`completed_tasks = sum(sum(1 for t in m['tasks'] if status == 'completed'))`,
and the percentage `round((completed_tasks / total_tasks) * 100, 2)` when
`total_tasks > 0`, else `0`. -/
def structured_project_stats (milestones_list : List (List String)) :
    Nat × Nat × ℚ :=
  let total_tasks := (milestones_list.map List.length).sum
  let completed_tasks :=
    (milestones_list.map
      (fun ts => (ts.filter (fun s => s == "completed")).length)).sum
  (total_tasks, completed_tasks,
    if total_tasks > 0 then
      py_round2 ((completed_tasks : ℚ) / (total_tasks : ℚ) * 100)
    else 0)

/-- The nested per-milestone sums equal counts over the flat list of all
tasks of the project. -/
theorem structured_stats_counts (ml : List (List String)) :
    (ml.map List.length).sum = ml.flatten.length
      ∧ (ml.map (fun ts => (ts.filter (fun s => s == "completed")).length)).sum
        = (ml.flatten.filter (fun s => s == "completed")).length := by
  constructor
  · exact (List.length_flatten ml).symm
  · induction ml with
    | nil => rfl
    | cons m ms ih =>
      simp only [List.map_cons, List.sum_cons, List.flatten_cons,
        List.filter_append, List.length_append, ih]

/-- C7: the complete-project view reports
`completion_percentage = round(100·C/T, 2)` where `T` is the number of tasks
across the project's milestones and `C` the number of them with status
`"completed"`, and reports `0` when `T = 0`. -/
theorem completion_percentage_formula (ml : List (List String)) :
    (ml.flatten.length = 0 → (structured_project_stats ml).2.2 = 0)
    ∧ (0 < ml.flatten.length →
        (structured_project_stats ml).2.2
          = py_round2 (100 * ((ml.flatten.filter (fun s => s == "completed")).length : ℚ)
              / (ml.flatten.length : ℚ))) := by
  obtain ⟨hT, hC⟩ := structured_stats_counts ml
  constructor
  · intro h0
    simp [structured_project_stats, hT, h0]
  · intro hpos
    simp only [structured_project_stats, hT, hC, if_pos hpos]
    rw [div_mul_eq_mul_div, mul_comm]

/-- Witness for `completion_percentage_formula`: a project with no tasks
reports 0; a project with 3 tasks, 2 of them completed, reports
`round(200/3, 2) = 66.67`. -/
theorem completion_percentage_formula_witness :
    ((structured_project_stats [[], []]).2.2 = 0)
    ∧ ((structured_project_stats
        [["completed", "not_started"], ["completed"]]).2.2
      = py_round2 (100 * (2 : ℚ) / 3)) := by
  constructor
  · exact (completion_percentage_formula [[], []]).1 (by decide)
  · have h := (completion_percentage_formula
      [["completed", "not_started"], ["completed"]]).2 (by decide)
    simpa using h

/-! ### Sibling ordering under create / update / delete
(`app/api/endpoints/milestones.py` `create_milestone` / `update_milestone` /
`delete_milestone`; `app/api/endpoints/subtasks.py` `create_subtask`;
`app/api/endpoints/tasks.py` is identical in shape) -/

/-- A milestone document, reduced to the fields the ordering claims are
about: its identifier and its `order` value within the parent project. -/
structure MilestoneRow where
  id : Nat
  order : Int
deriving DecidableEq, Repr

/-- A subtask document, reduced to its identifier and its `order` value
within the parent task. -/
structure SubtaskRow where
  id : Nat
  order : Int
deriving DecidableEq, Repr

/-- The `max_order` computation shared by all three create endpoints:
`max_order = 0`, then `if existing: max_order = max(e.order for e in
existing) + 1`.  (`List.max?` is Python `max` over a possibly empty
iterable.) -/
def max_order_of (orders : List Int) : Int :=
  match orders.max? with
  | none => 0
  | some m => m + 1

/-- `create_milestone`: after the access checks, compute `max_order` and run
`Milestone(project_id=project.id, order=milestone_data.get('order',
max_order), **milestone_data)`.  When the request body itself contains an
`order` key, the constructor receives the `order` keyword twice and Python
raises `TypeError` before anything is saved; otherwise the new document is
saved with `order = max_order` and no sibling is touched. -/
def create_milestone (siblings : List MilestoneRow) (newId : Nat)
    (body_order : Option Int) : Except String (List MilestoneRow) :=
  let maxOrder := max_order_of (siblings.map MilestoneRow.order)
  match body_order with
  | some _ =>
    .error "TypeError: got multiple values for keyword argument order"
  | none => .ok (siblings ++ [{ id := newId, order := maxOrder }])

/-- `delete_milestone`: delete the milestone's tasks and subtasks, then the
milestone itself.  No sibling milestone's `order` value is read or written
anywhere in the endpoint. -/
def delete_milestone (siblings : List MilestoneRow) (mid : Nat) :
    List MilestoneRow :=
  siblings.filter (fun m => m.id ≠ mid)

/-- `update_milestone` restricted to the `order` field: every body key other
than `id`/`project_id` is written onto the document verbatim
(`setattr(milestone, key, value)`); sibling milestones are not touched. -/
def update_milestone_set_order (siblings : List MilestoneRow) (mid : Nat)
    (newOrder : Int) : List MilestoneRow :=
  siblings.map (fun m => if m.id = mid then { m with order := newOrder } else m)

/-- `create_subtask`: same shape as `create_milestone` — `max_order` over the
task's existing subtasks, then `Subtask(task_id=task.id,
order=subtask_data.get('order', max_order), **subtask_data)`, which raises
`TypeError` whenever the body contains an `order` key. -/
def create_subtask (siblings : List SubtaskRow) (newId : Nat)
    (body_order : Option Int) : Except String (List SubtaskRow) :=
  let maxOrder := max_order_of (siblings.map SubtaskRow.order)
  match body_order with
  | some _ =>
    .error "TypeError: got multiple values for keyword argument order"
  | none => .ok (siblings ++ [{ id := newId, order := maxOrder }])

/-- The spec's density invariant on a list of order values: they are exactly
`{0, …, n-1}` as a multiset. -/
@[reducible] def dense_upto (orders : List Int) (n : Nat) : Prop :=
  (orders : Multiset Int) = ((List.range n).map (fun i : Nat => (i : Int)) : Multiset Int)

/-- The density invariant for a milestone collection. -/
@[reducible] def dense_orders (l : List MilestoneRow) : Prop :=
  dense_upto (l.map MilestoneRow.order) l.length

/-- Python `max` of a list whose members are exactly `{0, …, n-1}`, `n ≥ 1`,
is `n - 1`. -/
theorem max?_of_dense (l : List Int) (n : Nat) (hn : 0 < n)
    (h : dense_upto l n) : l.max? = some ((n : Int) - 1) := by
  have hperm : l.Perm ((List.range n).map (fun i : Nat => (i : Int))) :=
    Multiset.coe_eq_coe.mp h
  haveI anti : Std.Antisymm (fun a b : Int => a ≤ b) :=
    ⟨fun h1 h2 => le_antisymm h1 h2⟩
  rw [List.max?_eq_some_iff (fun a => le_refl a) (fun a b => max_choice a b)
    (fun a b c => max_le_iff)]
  constructor
  · rw [hperm.mem_iff]
    have hmem : n - 1 ∈ List.range n := List.mem_range.mpr (by omega)
    refine List.mem_map.mpr ⟨n - 1, hmem, ?_⟩
    omega
  · intro b hb
    obtain ⟨i, hi, rfl⟩ := List.mem_map.mp (hperm.subset hb)
    have := List.mem_range.mp hi
    omega

/-- On a dense sibling collection the create endpoints' `max_order` is the
number of siblings. -/
theorem max_order_of_dense (orders : List Int) (n : Nat)
    (h : dense_upto orders n) : max_order_of orders = (n : Int) := by
  rcases Nat.eq_zero_or_pos n with h0 | hpos
  · subst h0
    have : orders = [] := by
      simpa [dense_upto] using h
    simp [this, max_order_of]
  · rw [max_order_of, max?_of_dense orders n hpos h]
    show ((n : Int) - 1) + 1 = (n : Int)
    omega

/-- C1 counterexample: milestones with orders `{0, 1}`; deleting the one at
order `0` leaves the sibling at order `1`, so the surviving orders are `{1}`,
not `{0}` — the delete endpoint closes no gap. -/
theorem ordering_invariant_counterexample :
    delete_milestone [{ id := 1, order := 0 }, { id := 2, order := 1 }] 1
      = [{ id := 2, order := 1 }]
    ∧ ¬ dense_orders [{ id := 2, order := 1 }] := by
  exact ⟨rfl, by decide⟩

/-- C1 amended: a create request without an explicit order appends the new
milestone at order `count` and preserves density; a create request with an
explicit order raises a `TypeError` (the `order` keyword is passed twice);
deleting a milestone removes it and leaves every surviving sibling with its
old order value unchanged (no decrement closes the gap); updating a
milestone's order writes the given value directly, shifting no sibling. -/
theorem ordering_invariant_amended (s : List MilestoneRow) (newId : Nat)
    (v : Int) (mid : Nat) (hdense : dense_orders s) :
    (create_milestone s newId none
        = .ok (s ++ [{ id := newId, order := (s.length : Int) }])
      ∧ dense_orders (s ++ [{ id := newId, order := (s.length : Int) }]))
    ∧ (∃ e, create_milestone s newId (some v) = .error e)
    ∧ (∀ m : MilestoneRow, m ∈ delete_milestone s mid ↔ m ∈ s ∧ m.id ≠ mid)
    ∧ (∀ ord : Int, (update_milestone_set_order s mid ord).map MilestoneRow.order
        = s.map (fun m => if m.id = mid then ord else m.order)) := by
  have hmax := max_order_of_dense (s.map MilestoneRow.order) s.length hdense
  refine ⟨⟨?_, ?_⟩, ⟨_, rfl⟩, ?_, ?_⟩
  · simp [create_milestone, hmax]
  · apply Multiset.coe_eq_coe.mpr
    simp only [List.map_append, List.map_cons, List.map_nil,
      List.length_append, List.length_cons, List.length_nil, Nat.add_zero,
      List.range_succ]
    exact (Multiset.coe_eq_coe.mp hdense).append (List.Perm.refl _)
  · intro m
    simp [delete_milestone]
  · intro ord
    simp only [update_milestone_set_order, List.map_map]
    exact List.map_congr_left (fun m _ => by by_cases h : m.id = mid <;> simp [h])

/-- Witness for `ordering_invariant_amended` at the dense collection
`[(id 5, order 0)]`. -/
theorem ordering_invariant_amended_witness :
    (create_milestone [{ id := 5, order := 0 }] 7 none
        = .ok [{ id := 5, order := 0 }, { id := 7, order := 1 }]
      ∧ dense_orders [{ id := 5, order := 0 }, { id := 7, order := 1 }])
    ∧ (∃ e, create_milestone [{ id := 5, order := 0 }] 7 (some 99) = .error e)
    ∧ (∀ m : MilestoneRow,
        m ∈ delete_milestone [{ id := 5, order := 0 }] 5
          ↔ m ∈ [{ id := 5, order := 0 }] ∧ m.id ≠ 5)
    ∧ (∀ ord : Int,
        (update_milestone_set_order [{ id := 5, order := 0 }] 5 ord).map
            MilestoneRow.order
        = ([{ id := 5, order := 0 }] : List MilestoneRow).map
            (fun m => if m.id = 5 then ord else m.order)) := by
  have h := ordering_invariant_amended [{ id := 5, order := 0 }] 7 99 5
    (by decide)
  simpa using h

/-- C8 counterexample: a subtask create request that supplies the
out-of-range order `99` (siblings hold orders `{0, 1}`) is rejected with a
`TypeError`, not clamped into range. -/
theorem order_clamping_counterexample :
    create_subtask [{ id := 1, order := 0 }, { id := 2, order := 1 }] 3
        (some 99)
      = .error "TypeError: got multiple values for keyword argument order" := by
  rfl

/-- C8 amended: a create request supplying any order value (in range or not)
fails with a `TypeError`, because the endpoint passes the `order` keyword
both explicitly and inside the splatted request body; when no order is
supplied, the new entity is placed at the end of the (dense) sibling
collection, at order `count`. -/
theorem order_clamping_amended (s : List SubtaskRow) (newId : Nat) (v : Int)
    (hdense : dense_upto (s.map SubtaskRow.order) s.length) :
    (∃ e, create_subtask s newId (some v) = .error e)
    ∧ create_subtask s newId none
        = .ok (s ++ [{ id := newId, order := (s.length : Int) }]) := by
  have hmax := max_order_of_dense (s.map SubtaskRow.order) s.length hdense
  exact ⟨⟨_, rfl⟩, by simp [create_subtask, hmax]⟩

/-- Witness for `order_clamping_amended` at the two-subtask collection with
orders `{0, 1}`. -/
theorem order_clamping_amended_witness :
    (∃ e, create_subtask [{ id := 1, order := 0 }, { id := 2, order := 1 }] 3
        (some 99) = .error e)
    ∧ create_subtask [{ id := 1, order := 0 }, { id := 2, order := 1 }] 3 none
        = .ok [{ id := 1, order := 0 }, { id := 2, order := 1 },
               { id := 3, order := 2 }] := by
  have h := order_clamping_amended
    [{ id := 1, order := 0 }, { id := 2, order := 1 }] 3 99
    (by decide)
  simpa using h

/-! ### Project access control
(`app/api/endpoints/projects.py` and the milestone/task/subtask endpoints;
`get_structured_project` for the `/projects/{id}/complete` route) -/

/-- The Python runtime values taking part in the endpoints' access checks: a
bson `ObjectId`, or the string rendering `str(ObjectId)` of one.  Python
`==` between an `ObjectId` and a `str` is always `False`; `str` on
`ObjectId` is injective, so equality of two renderings coincides with
equality of the underlying ids. -/
inductive PyVal where
  | oid (n : Nat)
  | str_of_oid (n : Nat)
deriving DecidableEq, Repr

/-- Python `==` on the values above. -/
def pyEq : PyVal → PyVal → Bool
  | .oid a, .oid b => a == b
  | .str_of_oid a, .str_of_oid b => a == b
  | _, _ => false

/-- Python `x in xs` for a list: membership by `==`. -/
def pyIn (x : PyVal) (l : List PyVal) : Bool := l.any (fun y => pyEq x y)

/-- A project document reduced to the fields the access checks read. -/
structure ProjectDoc where
  owner_id : Nat
  collaborator_ids : List Nat
deriving DecidableEq, Repr

/-- The authenticated user (`current_user.id` is an `ObjectId`). -/
structure UserDoc where
  id : Nat
deriving DecidableEq, Repr

/-- The read check used by `get_project`, `list_milestones`, `list_tasks`,
`list_subtasks` and `get_subtask`:
`if project.owner_id.id != current_user.id and current_user.id not in
[str(c.id) for c in project.collaborator_ids]: raise 403`.  Note that the
membership test compares the user's `ObjectId` against the *string*
renderings of the collaborator ids. -/
def read_check (p : ProjectDoc) (u : UserDoc) : Except String Unit :=
  if (p.owner_id != u.id)
      && !(pyIn (.oid u.id) (p.collaborator_ids.map PyVal.str_of_oid)) then
    .error "Not authorized to access this project"
  else .ok ()

/-- The owner-only check used by `update_project`, `delete_project` and
every milestone/task/subtask create/update/delete endpoint:
`if project.owner_id.id != current_user.id: raise 403`. -/
def owner_check (p : ProjectDoc) (u : UserDoc) (detail : String) :
    Except String Unit :=
  if p.owner_id != u.id then .error detail else .ok ()

/-- The check inside `get_structured_project` (serving
`GET /projects/{id}/complete`): owner id, user id and collaborator ids are
all converted with `str` before comparison. -/
def structured_read_check (p : ProjectDoc) (u : UserDoc) :
    Except String Unit :=
  if !(pyEq (.str_of_oid p.owner_id) (.str_of_oid u.id))
      && !(pyIn (.str_of_oid u.id)
            (p.collaborator_ids.map PyVal.str_of_oid)) then
    .error "Not authorized to access this project"
  else .ok ()

/-- The read check used by the three diagram GET routes
(`diagrams.py`) and the four context routes (`context.py`):
`if project.owner_id.id != current_user.id and current_user.id not in
[collab.id for collab in project.collaborator_ids]: raise 403`.  Here the
membership test compares `ObjectId`s with `ObjectId`s, so it is a real
membership test. -/
def oid_read_check (p : ProjectDoc) (u : UserDoc) (detail : String) :
    Except String Unit :=
  if (p.owner_id != u.id)
      && !(pyIn (.oid u.id) (p.collaborator_ids.map PyVal.oid)) then
    .error detail
  else .ok ()

/-- The authenticated project-scoped routes of the mounted routers: the
project CRUD and complete view (`projects.py`), the milestone/task/subtask
CRUD (`milestones.py`, `tasks.py`, `subtasks.py`), the diagram read and
create/update routes (`diagrams.py`), and the context routes
(`context.py`). -/
inductive Route where
  | get_project
  | get_complete_project
  | update_project
  | delete_project
  | list_milestones
  | create_milestone_route
  | update_milestone_route
  | delete_milestone_route
  | list_tasks
  | create_task_route
  | update_task_route
  | delete_task_route
  | list_subtasks
  | get_subtask_route
  | create_subtask_route
  | update_subtask_route
  | delete_subtask_route
  | get_sequence_diagram_route
  | get_class_diagram_route
  | get_activity_diagram_route
  | create_sequence_diagram_route
  | update_sequence_diagram_route
  | create_class_diagram_route
  | update_class_diagram_route
  | create_activity_diagram_route
  | update_activity_diagram_route
  | generate_context_route
  | get_latest_context_route
  | update_context_notes_route
  | get_context_notes_route
deriving DecidableEq, Repr

/-- The six diagram create/update routes perform no ownership or
collaborator check at all: after loading the project by the caller-supplied
id they read its plan documents and write its diagram fields
(`diagrams.py:161,252,343,381,419,457`). -/
def Route.unchecked : Route → Bool
  | .create_sequence_diagram_route => true
  | .update_sequence_diagram_route => true
  | .create_class_diagram_route => true
  | .update_class_diagram_route => true
  | .create_activity_diagram_route => true
  | .update_activity_diagram_route => true
  | _ => false

/-- The access check each route performs once the project was found (a
missing project yields 404 on every route).  The diagram create/update
routes perform none: any authenticated user passes. -/
def route_access (r : Route) (p : ProjectDoc) (u : UserDoc) :
    Except String Unit :=
  match r with
  | .get_project => read_check p u
  | .get_complete_project => structured_read_check p u
  | .update_project => owner_check p u "Not authorized to update this project"
  | .delete_project => owner_check p u "Not authorized to delete this project"
  | .list_milestones => read_check p u
  | .create_milestone_route =>
    owner_check p u "Not authorized to update this project"
  | .update_milestone_route =>
    owner_check p u "Not authorized to update this project"
  | .delete_milestone_route =>
    owner_check p u "Not authorized to update this project"
  | .list_tasks => read_check p u
  | .create_task_route => owner_check p u "Not authorized to update this project"
  | .update_task_route => owner_check p u "Not authorized to update this project"
  | .delete_task_route => owner_check p u "Not authorized to update this project"
  | .list_subtasks => read_check p u
  | .get_subtask_route => read_check p u
  | .create_subtask_route =>
    owner_check p u "Not authorized to update this project"
  | .update_subtask_route =>
    owner_check p u "Not authorized to update this project"
  | .delete_subtask_route =>
    owner_check p u "Not authorized to update this project"
  | .get_sequence_diagram_route => oid_read_check p u "Access denied"
  | .get_class_diagram_route => oid_read_check p u "Access denied"
  | .get_activity_diagram_route => oid_read_check p u "Access denied"
  | .create_sequence_diagram_route => .ok ()
  | .update_sequence_diagram_route => .ok ()
  | .create_class_diagram_route => .ok ()
  | .update_class_diagram_route => .ok ()
  | .create_activity_diagram_route => .ok ()
  | .update_activity_diagram_route => .ok ()
  | .generate_context_route =>
    oid_read_check p u "Not authorized to access this project"
  | .get_latest_context_route =>
    oid_read_check p u "Not authorized to access this project"
  | .update_context_notes_route =>
    oid_read_check p u "Not authorized to access this project"
  | .get_context_notes_route =>
    oid_read_check p u "Not authorized to access this project"

/-- An `ObjectId` is never `==` to any string rendering, so the collaborator
membership test of `read_check` is identically false. -/
theorem pyIn_oid_str (x : Nat) (l : List Nat) :
    pyIn (.oid x) (l.map PyVal.str_of_oid) = false := by
  simp [pyIn, List.any_map, pyEq, Function.comp]

/-- C5 counterexample: user 2 is a collaborator on the project owned by
user 1, yet `GET /projects/{id}` (the project read route) answers 403,
because the membership test compares an `ObjectId` with strings. -/
theorem access_isolation_counterexample :
    route_access .get_project
        { owner_id := 1, collaborator_ids := [2] } { id := 2 }
      = .error "Not authorized to access this project" := by
  rfl

/-- The collaborator membership test of `structured_read_check` is a real
membership test on the underlying ids. -/
theorem pyIn_str_of_oid_iff (x : Nat) (l : List Nat) :
    pyIn (.str_of_oid x) (l.map PyVal.str_of_oid) = true ↔ x ∈ l := by
  simp [pyIn, List.any_map, pyEq, Function.comp]

/-- The collaborator membership test of `oid_read_check` is a real
membership test on the underlying ids. -/
theorem pyIn_oid_iff (x : Nat) (l : List Nat) :
    pyIn (.oid x) (l.map PyVal.oid) = true ↔ x ∈ l := by
  simp [pyIn, List.any_map, pyEq, Function.comp]

/-- C5 amended: a user who is neither owner nor collaborator gets an error
from every project-scoped route that performs an access check, but the six
diagram create/update routes perform none, so an authenticated outsider
reads the project document and writes its diagram fields through them; a
non-owner collaborator is forbidden from deleting the project; a non-owner
collaborator can read the project through the complete-project route (whose
check compares string ids on both sides) and through the diagram/context
read routes (whose checks compare `ObjectId`s on both sides), but is denied
on `get_project` and the other list/get routes, whose collaborator test
compares the user's `ObjectId` against string ids and never matches. -/
theorem access_isolation_amended (p : ProjectDoc) (u : UserDoc)
    (hnotown : u.id ≠ p.owner_id) :
    ((u.id ∉ p.collaborator_ids) →
      (∀ r : Route, r.unchecked = false → ∃ e, route_access r p u = .error e)
      ∧ (∀ r : Route, r.unchecked = true → route_access r p u = .ok ()))
    ∧ (u.id ∈ p.collaborator_ids →
        route_access .get_complete_project p u = .ok ()
        ∧ route_access .get_sequence_diagram_route p u = .ok ()
        ∧ route_access .get_context_notes_route p u = .ok ()
        ∧ route_access .delete_project p u
            = .error "Not authorized to delete this project"
        ∧ route_access .get_project p u
            = .error "Not authorized to access this project") := by
  have hbne : (p.owner_id != u.id) = true := by
    simp [bne_iff_ne]
    exact fun h => hnotown h.symm
  have hstr_owner : pyEq (.str_of_oid p.owner_id) (.str_of_oid u.id) = false := by
    simp [pyEq]
    exact fun h => hnotown h.symm
  constructor
  · intro hnotin
    have hin_false : pyIn (.str_of_oid u.id)
        (p.collaborator_ids.map PyVal.str_of_oid) = false := by
      cases hb : pyIn (.str_of_oid u.id)
          (p.collaborator_ids.map PyVal.str_of_oid) with
      | false => rfl
      | true =>
        exact absurd ((pyIn_str_of_oid_iff u.id p.collaborator_ids).mp hb)
          hnotin
    have hin_oid_false : pyIn (.oid u.id)
        (p.collaborator_ids.map PyVal.oid) = false := by
      cases hb : pyIn (.oid u.id) (p.collaborator_ids.map PyVal.oid) with
      | false => rfl
      | true =>
        exact absurd ((pyIn_oid_iff u.id p.collaborator_ids).mp hb) hnotin
    have herr_read : ∃ e, read_check p u = .error e :=
      ⟨"Not authorized to access this project",
        by simp [read_check, hbne, pyIn_oid_str]⟩
    have herr_structured : ∃ e, structured_read_check p u = .error e :=
      ⟨"Not authorized to access this project",
        by simp [structured_read_check, hstr_owner, hin_false]⟩
    have herr_owner : ∀ d, ∃ e, owner_check p u d = .error e :=
      fun d => ⟨d, by simp [owner_check, hbne]⟩
    have herr_oid : ∀ d, ∃ e, oid_read_check p u d = .error e :=
      fun d => ⟨d, by simp [oid_read_check, hbne, hin_oid_false]⟩
    constructor
    · intro r hun
      cases r <;>
        first
          | exact absurd hun (by decide)
          | exact herr_read
          | exact herr_structured
          | exact herr_owner _
          | exact herr_oid _
    · intro r hun
      cases r <;>
        first
          | exact absurd hun (by decide)
          | rfl
  · intro hcol
    have hmem : pyIn (.str_of_oid u.id)
        (p.collaborator_ids.map PyVal.str_of_oid) = true :=
      (pyIn_str_of_oid_iff u.id p.collaborator_ids).mpr hcol
    have hmem_oid : pyIn (.oid u.id)
        (p.collaborator_ids.map PyVal.oid) = true :=
      (pyIn_oid_iff u.id p.collaborator_ids).mpr hcol
    refine ⟨?_, ?_, ?_, ?_, ?_⟩
    · simp [route_access, structured_read_check, hmem]
    · simp [route_access, oid_read_check, hmem_oid]
    · simp [route_access, oid_read_check, hmem_oid]
    · simp [route_access, owner_check, hbne]
    · simp [route_access, read_check, hbne, pyIn_oid_str]

/-- Witness for `access_isolation_amended`: outsider 3 is denied on every
checked route of the project owned by 1 with collaborator 2 but passes the
six unchecked diagram create/update routes; collaborator 2 can read the
complete view, a diagram and the context notes, but can neither delete nor
use `get_project`. -/
theorem access_isolation_amended_witness :
    ((∀ r : Route, r.unchecked = false → ∃ e, route_access r
        { owner_id := 1, collaborator_ids := [2] } { id := 3 } = .error e)
      ∧ (∀ r : Route, r.unchecked = true → route_access r
        { owner_id := 1, collaborator_ids := [2] } { id := 3 } = .ok ()))
    ∧ (route_access .get_complete_project
          { owner_id := 1, collaborator_ids := [2] } { id := 2 } = .ok ()
        ∧ route_access .get_sequence_diagram_route
            { owner_id := 1, collaborator_ids := [2] } { id := 2 } = .ok ()
        ∧ route_access .get_context_notes_route
            { owner_id := 1, collaborator_ids := [2] } { id := 2 } = .ok ()
        ∧ route_access .delete_project
            { owner_id := 1, collaborator_ids := [2] } { id := 2 }
          = .error "Not authorized to delete this project"
        ∧ route_access .get_project
            { owner_id := 1, collaborator_ids := [2] } { id := 2 }
          = .error "Not authorized to access this project") := by
  constructor
  · exact (access_isolation_amended { owner_id := 1, collaborator_ids := [2] }
      { id := 3 } (by decide)).1 (by decide)
  · exact (access_isolation_amended { owner_id := 1, collaborator_ids := [2] }
      { id := 2 } (by decide)).2 (by decide)

/-! ### Plan materialization and its call site
(`app/utils/serializers.py`, `create_or_update_project_from_plan`, creation
path, and `app/api/endpoints/plan.py`, `generate_plan_background`) -/

/-- A subtask entry of the generated implementation plan. -/
structure PlanSubtask where
  name : String
deriving DecidableEq, Repr

/-- A task entry of the generated implementation plan. -/
structure PlanTask where
  name : String
  dependencies : List String
  subtasks : List PlanSubtask
deriving DecidableEq, Repr

/-- A milestone entry of the generated implementation plan. -/
structure PlanMilestone where
  name : String
  tasks : List PlanTask
deriving DecidableEq, Repr

/-- A persisted subtask produced by materialization. -/
structure CreatedSubtask where
  name : String
  order : Nat
deriving DecidableEq, Repr

/-- A persisted task produced by materialization.  `dependency_ids` holds the
positions (standing for the ObjectIds) of the referenced sibling tasks. -/
structure CreatedTask where
  name : String
  order : Nat
  dependency_ids : List Nat
  subtasks : List CreatedSubtask
deriving DecidableEq, Repr

/-- A persisted milestone produced by materialization. -/
structure CreatedMilestone where
  name : String
  order : Nat
  tasks : List CreatedTask
deriving DecidableEq, Repr

/-- The per-milestone `tasks_dict`: `tasks_dict[task_data.get("name")] =
task` executed in creation order, so a lookup returns the task most recently
stored under that name — the last index whose task carries the name. -/
def tasks_dict_lookup (ts : List PlanTask) (name : String) : Option Nat :=
  ((ts.enum.filter (fun jt => jt.2.name == name)).map Prod.fst).getLast?

/-- `dependency_ids = [tasks_dict[dep_name].id for dep_name in dependencies
if dep_name in tasks_dict]`: names absent from the dict are silently
dropped. -/
def resolve_dependencies (ts : List PlanTask) (deps : List String) :
    List Nat :=
  deps.filterMap (fun dep_name => tasks_dict_lookup ts dep_name)

/-- `task.dependency_ids = dependency_ids; task.save()` on the `j`-th
created task. -/
def set_dependency_ids :
    List CreatedTask → Nat → List Nat → List CreatedTask
  | [], _, _ => []
  | ct :: rest, 0, resolved => { ct with dependency_ids := resolved } :: rest
  | ct :: rest, j + 1, resolved => ct :: set_dependency_ids rest j resolved

/-- One iteration of the second loop of the materializer: `if "dependencies"
in task_data and task_data["dependencies"]: task =
tasks_dict.get(task_data.get("name")); if task: … if dependency_ids:
task.dependency_ids = dependency_ids; task.save()`. -/
def apply_dep_step (ts : List PlanTask) (acc : List CreatedTask)
    (t : PlanTask) : List CreatedTask :=
  if t.dependencies ≠ [] then
    match tasks_dict_lookup ts t.name with
    | some j =>
      if resolve_dependencies ts t.dependencies ≠ [] then
        set_dependency_ids acc j (resolve_dependencies ts t.dependencies)
      else acc
    | none => acc
  else acc

/-- The dependency pass over one milestone's created tasks. -/
def apply_dependencies (ts : List PlanTask) (created : List CreatedTask) :
    List CreatedTask :=
  ts.foldl (apply_dep_step ts) created

/-- The task loop of the materializer for one milestone: the `j`-th task is
saved with `order = j`, its `k`-th subtask with `order = k`, then the
dependency pass runs against the milestone's own `tasks_dict`. -/
def materialize_tasks (ts : List PlanTask) : List CreatedTask :=
  apply_dependencies ts (ts.enum.map (fun jt =>
    { name := jt.2.name, order := jt.1, dependency_ids := [],
      subtasks := jt.2.subtasks.enum.map (fun ks =>
        { name := ks.2.name, order := ks.1 }) }))

/-- The creation loop of `create_or_update_project_from_plan`: the `i`-th
milestone of `implementation_plan` is saved with `order = i` and its tasks
are created by `materialize_tasks`. -/
def materialize_implementation_plan (plan : List PlanMilestone) :
    List CreatedMilestone :=
  plan.enum.map (fun im =>
    { name := im.2.name, order := im.1,
      tasks := materialize_tasks im.2.tasks })

/-- The parameters of `create_or_update_project_from_plan(project_data,
current_user, input_data, existing_project_id=None)`, with a flag for
"has a default value". -/
def create_or_update_params : List (String × Bool) :=
  [("project_data", false), ("current_user", false), ("input_data", false),
   ("existing_project_id", true)]

/-- The keyword arguments supplied at the call site in
`generate_plan_background`:
`create_or_update_project_from_plan(project_data=plan,
current_user=current_user)`. -/
def background_call_kwargs : List String := ["project_data", "current_user"]

/-- Python call binding for a keyword-only call: a `TypeError` is raised
when a parameter without a default receives no argument. -/
def bind_call (params : List (String × Bool)) (kwargs : List String) :
    Except String Unit :=
  match params.find? (fun par => !par.2 && !(kwargs.contains par.1)) with
  | some par => .error ("TypeError: missing required argument: " ++ par.1)
  | none => .ok ()

/-- `generate_plan_background` for a run whose seven pipeline stages all
succeed (the claim's hypothesis): progress is advanced, then the
materializer is called with only `project_data` and `current_user`; the
whole body sits in a `try` whose `except` runs `progress.fail(str(e))`.
Returns the final progress document and the entities persisted by the
materializer (`[]` when the call raised before materializing). -/
def generate_plan_background (plan : List PlanMilestone)
    (progress : PlanProgress) (now : Nat) :
    PlanProgress × List CreatedMilestone :=
  let p1 := progress.update_progress "Initializing plan generation" 1
    "processing" now
  let p2 := p1.update_progress "Creating project" 6 "processing" now
  match bind_call create_or_update_params background_call_kwargs with
  | .error e => (p2.fail e now, [])
  | .ok _ =>
    (p2.complete [] "" now, materialize_implementation_plan plan)

/-- Replacing a created task's `dependency_ids` leaves any projection that
ignores that field unchanged over `set_dependency_ids`. -/
theorem map_set_dependency_ids {β : Type} (g : CreatedTask → β)
    (hg : ∀ ct r, g { ct with dependency_ids := r } = g ct) :
    ∀ (l : List CreatedTask) (j : Nat) (r : List Nat),
      (set_dependency_ids l j r).map g = l.map g := by
  intro l
  induction l with
  | nil => intro j r; rfl
  | cons ct rest ih =>
    intro j r
    cases j with
    | zero => simp [set_dependency_ids, hg]
    | succ j => simp [set_dependency_ids, ih]

/-- The dependency pass only rewrites `dependency_ids`: any projection that
ignores that field is preserved. -/
theorem map_apply_dependencies {β : Type} (g : CreatedTask → β)
    (hg : ∀ ct r, g { ct with dependency_ids := r } = g ct)
    (ts : List PlanTask) (created : List CreatedTask) :
    (apply_dependencies ts created).map g = created.map g := by
  have hstep : ∀ (acc : List CreatedTask) (t : PlanTask),
      (apply_dep_step ts acc t).map g = acc.map g := by
    intro acc t
    by_cases hd : t.dependencies = []
    · simp [apply_dep_step, hd]
    · cases hq : tasks_dict_lookup ts t.name with
      | none => simp [apply_dep_step, hd, hq]
      | some j =>
        by_cases hr : resolve_dependencies ts t.dependencies = []
        · simp [apply_dep_step, hd, hq, hr]
        · simp [apply_dep_step, hd, hq, hr, map_set_dependency_ids g hg]
  have h : ∀ (l : List PlanTask) (acc : List CreatedTask),
      (List.foldl (apply_dep_step ts) acc l).map g = acc.map g := by
    intro l
    induction l with
    | nil => intro acc; rfl
    | cons t rest ih =>
      intro acc
      rw [List.foldl_cons, ih, hstep]
  exact h ts created

/-- The tasks of a materialized milestone carry `order = 0, 1, …` in
creation order. -/
theorem materialize_tasks_order (ts : List PlanTask) :
    (materialize_tasks ts).map CreatedTask.order = List.range ts.length := by
  unfold materialize_tasks
  rw [map_apply_dependencies CreatedTask.order (fun ct r => rfl),
    List.map_map]
  exact List.enum_map_fst ts

/-- The dependency pass does not change how many tasks were created. -/
theorem materialize_tasks_length (ts : List PlanTask) :
    (materialize_tasks ts).length = ts.length := by
  have h := congrArg List.length (materialize_tasks_order ts)
  simpa using h

/-- Every materialized task's subtasks carry `order = 0, 1, …` in creation
order. -/
theorem materialize_tasks_subtasks (ts : List PlanTask) :
    ∀ ct ∈ materialize_tasks ts,
      ct.subtasks.map CreatedSubtask.order
        = List.range ct.subtasks.length := by
  intro ct hct
  have hsub : ct.subtasks ∈ (materialize_tasks ts).map CreatedTask.subtasks :=
    List.mem_map_of_mem CreatedTask.subtasks hct
  unfold materialize_tasks at hsub
  rw [map_apply_dependencies CreatedTask.subtasks (fun ct r => rfl),
    List.map_map] at hsub
  obtain ⟨jt, hjt, heq⟩ := List.mem_map.mp hsub
  rw [← heq]
  show (jt.2.subtasks.enum.map (fun ks =>
      ({ name := ks.2.name, order := ks.1 } : CreatedSubtask))).map
      CreatedSubtask.order
    = List.range ((jt.2.subtasks.enum.map (fun ks =>
        ({ name := ks.2.name, order := ks.1 } : CreatedSubtask))).length)
  rw [List.map_map]
  have h1 : jt.2.subtasks.enum.map
      (CreatedSubtask.order ∘ (fun ks =>
        ({ name := ks.2.name, order := ks.1 } : CreatedSubtask)))
      = jt.2.subtasks.enum.map Prod.fst := rfl
  rw [h1, List.enum_map_fst]
  have h2 : ((jt.2.subtasks.enum.map (fun ks =>
      ({ name := ks.2.name, order := ks.1 } : CreatedSubtask))).length)
      = jt.2.subtasks.length := by
    simp
  rw [h2]

/-- C3: through the plan endpoint, a pipeline run whose seven stages all
succeed is NOT materialized: the call site omits the required `input_data`
argument, Python raises a `TypeError`, the progress record is marked failed
and nothing is persisted.  The materializer itself, given its arguments,
does create the `i`-th milestone with `order = i`, the `j`-th task of each
milestone with `order = j`, the `k`-th subtask of each task with
`order = k`, and silently drops dependency names absent from the milestone's
name-to-task map. -/
theorem plan_materialization_background (plan : List PlanMilestone)
    (progress : PlanProgress) (now : Nat) (ts : List PlanTask) (dep : String)
    (rest : List String) (hdep : tasks_dict_lookup ts dep = none) :
    ((generate_plan_background plan progress now).1.status = "failed"
      ∧ (generate_plan_background plan progress now).1.error_message
          = some "TypeError: missing required argument: input_data"
      ∧ (generate_plan_background plan progress now).2 = [])
    ∧ ((materialize_implementation_plan plan).map CreatedMilestone.order
        = List.range plan.length
      ∧ ∀ cm ∈ materialize_implementation_plan plan,
          cm.tasks.map CreatedTask.order = List.range cm.tasks.length
          ∧ ∀ ct ∈ cm.tasks,
              ct.subtasks.map CreatedSubtask.order
                = List.range ct.subtasks.length)
    ∧ resolve_dependencies ts (dep :: rest)
        = resolve_dependencies ts rest := by
  refine ⟨⟨rfl, rfl, rfl⟩, ⟨?_, ?_⟩, ?_⟩
  · unfold materialize_implementation_plan
    rw [List.map_map]
    exact List.enum_map_fst plan
  · intro cm hcm
    unfold materialize_implementation_plan at hcm
    obtain ⟨im, him, rfl⟩ := List.mem_map.mp hcm
    refine ⟨?_, ?_⟩
    · show (materialize_tasks im.2.tasks).map CreatedTask.order
        = List.range (materialize_tasks im.2.tasks).length
      rw [materialize_tasks_order, materialize_tasks_length]
    · exact materialize_tasks_subtasks im.2.tasks
  · show (dep :: rest).filterMap (fun dep_name =>
        tasks_dict_lookup ts dep_name)
      = resolve_dependencies ts rest
    rw [List.filterMap_cons]
    simp only [hdep]
    rfl

/-- Witness for `plan_materialization_background` at a one-milestone plan
whose task names an unknown dependency. -/
theorem plan_materialization_background_witness :
    ((generate_plan_background
        [{ name := "M1",
           tasks := [{ name := "T1", dependencies := ["nope"],
                       subtasks := [{ name := "S1" }] }] }]
        { task_id := "t", user_id := "u", status := "pending",
          current_step := "starting", step_number := 0, total_steps := 7,
          error_message := none, result := [], project_id := none,
          updated_at := 0 } 5).1.status = "failed")
    ∧ resolve_dependencies
        [{ name := "T1", dependencies := ["nope"],
           subtasks := [{ name := "S1" }] }] ["nope"]
      = resolve_dependencies
        [{ name := "T1", dependencies := ["nope"],
           subtasks := [{ name := "S1" }] }] [] := by
  have h := plan_materialization_background
    [{ name := "M1",
       tasks := [{ name := "T1", dependencies := ["nope"],
                   subtasks := [{ name := "S1" }] }] }]
    { task_id := "t", user_id := "u", status := "pending",
      current_step := "starting", step_number := 0, total_steps := 7,
      error_message := none, result := [], project_id := none,
      updated_at := 0 } 5
    [{ name := "T1", dependencies := ["nope"],
       subtasks := [{ name := "S1" }] }] "nope" [] (by decide)
  exact ⟨h.1.1, h.2.2⟩
